import Mathlib

/-!
Shallow embedding of src/main.rs of the axact-ext repository: the telemetry
data model, the sampler loop with its decimation counter, the broadcast
channels, and the websocket relay handlers.  f32 values are modelled as
rationals (no floating-point arithmetic is performed on them by the source:
they are only collected, compared, cast and serialized), u64 as Nat and i32
as Int with the saturation the Rust float-to-int cast performs.
-/

/-- ProcessInfo from main.rs lines 22 to 26: a process name and its cpu usage
cast to i32. -/
structure ProcessInfo where
  name : String
  cpu_usage : Int
  deriving DecidableEq

/-- CpuCore from main.rs lines 35 to 39: per-core usage and optional
temperature. -/
structure CpuCore where
  usage : ℚ
  temp : Option ℚ
  deriving DecidableEq

/-- CpuState from main.rs lines 28 to 33: per-core records, overall package
temperature, and the per-core-temperature capability flag. -/
structure CpuState where
  cores : List CpuCore
  temp : ℚ
  core_temp : Bool
  deriving DecidableEq

/-- MemState from main.rs lines 41 to 45: total and used memory in bytes. -/
structure MemState where
  total : Nat
  used : Nat
  deriving DecidableEq

/-- JSON values, used to model what serde_json::to_string produces; object
fields are kept in serialization order, which for a serde derive is struct
declaration order. -/
inductive JsonValue where
  | null : JsonValue
  | bool (b : Bool) : JsonValue
  | num (q : ℚ) : JsonValue
  | str (s : String) : JsonValue
  | arr (xs : List JsonValue) : JsonValue
  | obj (fields : List (String × JsonValue)) : JsonValue

/-- Serialization of Option f32 by serde: None becomes null, Some x the
number. -/
def optionToJson : Option ℚ → JsonValue
  | none => JsonValue.null
  | some q => JsonValue.num q

/-- Serde serialization of CpuCore: fields usage then temp. -/
def cpuCoreToJson (c : CpuCore) : JsonValue :=
  JsonValue.obj [("usage", JsonValue.num c.usage), ("temp", optionToJson c.temp)]

/-- Serde serialization of CpuState: fields cores, temp, core_temp. -/
def cpuStateToJson (s : CpuState) : JsonValue :=
  JsonValue.obj [("cores", JsonValue.arr (s.cores.map cpuCoreToJson)),
    ("temp", JsonValue.num s.temp),
    ("core_temp", JsonValue.bool s.core_temp)]

/-- Serde serialization of MemState: fields total then used. -/
def memStateToJson (m : MemState) : JsonValue :=
  JsonValue.obj [("total", JsonValue.num m.total), ("used", JsonValue.num m.used)]

/-- Serde serialization of ProcessInfo: fields name then cpu_usage. -/
def processInfoToJson (p : ProcessInfo) : JsonValue :=
  JsonValue.obj [("name", JsonValue.str p.name), ("cpu_usage", JsonValue.num p.cpu_usage)]

/-- Serde serialization of a Vec of ProcessInfo: a JSON array. -/
def processListToJson (ps : List ProcessInfo) : JsonValue :=
  JsonValue.arr (ps.map processInfoToJson)

/-- Whether pat occurs as a contiguous subsequence of the character list. -/
def charsContain (pat : List Char) : List Char → Bool
  | [] => pat.isEmpty
  | c :: t => pat.isPrefixOf (c :: t) || charsContain pat t

/-- Rust str::contains on the labels used by main.rs, modelled as a
contiguous-subsequence search on the character lists. -/
def strContains (s pat : String) : Bool :=
  charsContain pat.data s.data

/-- Truncation of a rational toward zero, the rounding a Rust float-to-int
cast performs. -/
def ratTruncTowardZero (q : ℚ) : Int :=
  if 0 ≤ q then Rat.floor q else Rat.ceil q

/-- The Rust cast proc.cpu_usage() as i32 of main.rs line 86: truncation
toward zero, saturating at the i32 bounds. -/
def f32AsI32 (q : ℚ) : Int :=
  if q ≤ (-2147483648 : ℚ) then -2147483648
  else if (2147483647 : ℚ) ≤ q then 2147483647
  else ratTruncTowardZero q

/-- Comparison key used by processes.sort_by_key at main.rs line 89. -/
def procLe (a b : ProcessInfo) : Prop :=
  a.cpu_usage ≤ b.cpu_usage

instance : DecidableRel procLe :=
  fun a b => inferInstanceAs (Decidable (a.cpu_usage ≤ b.cpu_usage))

instance : IsTotal ProcessInfo procLe :=
  ⟨fun a b => Int.le_total a.cpu_usage b.cpu_usage⟩

instance : IsTrans ProcessInfo procLe :=
  ⟨fun _ _ _ h1 h2 => le_trans h1 h2⟩

/-- One cycle's observation of the operating system, as read by the sys
handle in main.rs: memory totals, the enumerated processes with their f32
cpu usage, the per-cpu usages, and the component sensors as label and
temperature pairs. -/
structure SysObs where
  total_memory : Nat
  used_memory : Nat
  processes : List (String × ℚ)
  cpu_usages : List ℚ
  components : List (String × ℚ)

/-- The process list computation of main.rs lines 81 to 91: map every
enumerated process to a ProcessInfo with its usage cast to i32, stable sort
ascending by cpu_usage (Rust sort_by_key is a stable ascending sort),
reverse, truncate to 4. -/
def computeProcesses (procs : List (String × ℚ)) : List ProcessInfo :=
  let ps := procs.map (fun p => ProcessInfo.mk p.fst (f32AsI32 p.snd))
  ((List.insertionSort procLe ps).reverse).take 4

/-- The feature-gated cores computation of main.rs lines 123 to 141: for
every enumerated core index, push one CpuCore for every component whose
label contains the string coretemp Core followed by the index. -/
def coreTempCores (cpu_usages : List ℚ) (components : List (String × ℚ)) : List CpuCore :=
  (cpu_usages.enum.map (fun p =>
    components.filterMap (fun comp =>
      if strContains comp.fst ("coretemp Core " ++ toString p.fst)
      then some (CpuCore.mk p.snd (some comp.snd))
      else none))).flatten

/-- The cpu_state computation of main.rs lines 105 to 149.  The cfg feature
core_temp is modelled as a boolean parameter: when false (the default
build), every usage becomes a core with no temperature; when true, cores
are produced by coreTempCores and the core_temp flag is set.  In both
builds the final loop overwrites the package temperature with the reading
of each component whose label contains coretemp Package or cpu_thermal,
the last match winning, starting from 0. -/
def computeCpuState (coreTempFeature : Bool) (cpu_usages : List ℚ)
    (components : List (String × ℚ)) : CpuState :=
  let cores :=
    if coreTempFeature then coreTempCores cpu_usages components
    else cpu_usages.map (fun u => CpuCore.mk u none)
  let temp := components.foldl
    (fun t comp =>
      if strContains comp.fst "coretemp Package" || strContains comp.fst "cpu_thermal"
      then comp.snd else t) 0
  CpuState.mk cores temp coreTempFeature

/-- A value published on one of the three broadcast channels. -/
inductive Publication where
  | mem (m : MemState) : Publication
  | procs (ps : List ProcessInfo) : Publication
  | cpu (c : CpuState) : Publication
  deriving DecidableEq

/-- Initial value of the mutable send_less_freq counter, main.rs line 68. -/
def send_less_freq_init : Nat := 0

/-- The counter update of main.rs lines 99 to 102: increment, and reset to
zero when the incremented value reaches 5. -/
def nextCounter (c : Nat) : Nat :=
  if c + 1 = 5 then 0 else c + 1

/-- One iteration of the sampler loop of main.rs lines 70 to 155, as the
list of values published this cycle (in publish order) together with the
counter value for the next cycle.  When the counter is 0 the memory
snapshot and then the process snapshot are published; the cpu snapshot is
published every cycle, after the counter update. -/
def samplerCycle (coreTempFeature : Bool) (send_less_freq : Nat) (obs : SysObs) :
    List Publication × Nat :=
  let memProc : List Publication :=
    if send_less_freq = 0 then
      [Publication.mem (MemState.mk obs.total_memory obs.used_memory),
       Publication.procs (computeProcesses obs.processes)]
    else []
  (memProc ++ [Publication.cpu (computeCpuState coreTempFeature obs.cpu_usages obs.components)],
   nextCounter send_less_freq)

/-- Counter value at the start of cycle n of the sampler loop. -/
def counterAt : Nat → Nat
  | 0 => send_less_freq_init
  | n + 1 => nextCounter (counterAt n)

/-- Whether a publication is a memory snapshot. -/
def isMemPub : Publication → Bool
  | Publication.mem _ => true
  | _ => false

/-- Whether a publication is a process snapshot. -/
def isProcPub : Publication → Bool
  | Publication.procs _ => true
  | _ => false

/-- Whether a publication is a cpu snapshot. -/
def isCpuPub : Publication → Bool
  | Publication.cpu _ => true
  | _ => false

/-- Whether a cycle's publication list contains a memory snapshot. -/
def hasMemPub (l : List Publication) : Bool := l.any isMemPub

/-- Whether a cycle's publication list contains a process snapshot. -/
def hasProcPub (l : List Publication) : Bool := l.any isProcPub

/-- Whether a cycle's publication list contains a cpu snapshot. -/
def hasCpuPub (l : List Publication) : Bool := l.any isCpuPub

/-- Index of the first publication satisfying a predicate. -/
def firstIdxP (p : Publication → Bool) : List Publication → Option Nat
  | [] => none
  | x :: xs => if p x then some 0 else (firstIdxP p xs).map (· + 1)

/-- Modelled from the spec: result of a tokio broadcast send (library code,
not under src).  Publishing with zero current receivers returns an error
carrying the value back (the value is dropped, nothing is buffered for
future joiners); otherwise it returns the receiver count. -/
def broadcastSend (receiverCount : Nat) (v : Publication) : Except Publication Nat :=
  if receiverCount = 0 then Except.error v else Except.ok receiverCount

/-- One iteration of the sampler loop with the three subscriber counts made
explicit and each send's result recorded.  The source binds every send
result to an underscore (main.rs lines 96, 97 and 153), so the cycle's
publications and next counter are computed without consulting them. -/
def samplerCycleSends (coreTempFeature : Bool) (send_less_freq : Nat) (obs : SysObs)
    (ramSubs procSubs cpuSubs : Nat) :
    (List Publication × Nat) × List (Except Publication Nat) :=
  if send_less_freq = 0 then
    let m := MemState.mk obs.total_memory obs.used_memory
    let ps := computeProcesses obs.processes
    let r1 := broadcastSend ramSubs (Publication.mem m)
    let r2 := broadcastSend procSubs (Publication.procs ps)
    let st := computeCpuState coreTempFeature obs.cpu_usages obs.components
    let r3 := broadcastSend cpuSubs (Publication.cpu st)
    ((Publication.mem m :: Publication.procs ps :: [Publication.cpu st],
      nextCounter send_less_freq), [r1, r2, r3])
  else
    let st := computeCpuState coreTempFeature obs.cpu_usages obs.components
    let r3 := broadcastSend cpuSubs (Publication.cpu st)
    (([Publication.cpu st], nextCounter send_less_freq), [r3])

/-- Result of one rx.recv().await on a broadcast receiver: a value, or a
lagged error carrying the number of skipped messages, or a closed error. -/
inductive RecvResult (α : Type) where
  | ok (v : α) : RecvResult α
  | lagged (n : Nat) : RecvResult α
  | closed : RecvResult α

/-- How a relay handler's loop left off after consuming a finite prefix of
its receive results. -/
inductive HandlerExit where
  | stillWaiting : HandlerExit
  | recvError : HandlerExit
  | sendPanic : HandlerExit
  deriving DecidableEq

/-- The relay loop shared by realtime_cpus_stream, realtime_ram_stream and
realtime_process_stream (main.rs lines 172 to 180, 190 to 198, 208 to 216):
while rx.recv() yields Ok, serialize the value and write it to the
websocket, unwrapping the write result.  The while-let ends the loop
normally on any receive error (recvError); a failed write makes the unwrap
panic (sendPanic), after which nothing further runs in the handler.  The
returned list holds the serialized messages successfully written, in
order. -/
def relayLoop {α : Type} (ser : α → JsonValue) (writeOk : JsonValue → Bool) :
    List (RecvResult α) → List JsonValue × HandlerExit
  | [] => ([], HandlerExit.stillWaiting)
  | RecvResult.closed :: _ => ([], HandlerExit.recvError)
  | RecvResult.lagged _ :: _ => ([], HandlerExit.recvError)
  | RecvResult.ok v :: rest =>
    let msg := ser v
    if writeOk msg then
      let r := relayLoop ser writeOk rest
      (msg :: r.1, r.2)
    else ([], HandlerExit.sendPanic)

/-- The relay of realtime_cpus_stream: relayLoop with the CpuState
serializer. -/
def realtime_cpus_stream : (JsonValue → Bool) → List (RecvResult CpuState) →
    List JsonValue × HandlerExit :=
  relayLoop cpuStateToJson

/-- The relay of realtime_ram_stream: relayLoop with the MemState
serializer. -/
def realtime_ram_stream : (JsonValue → Bool) → List (RecvResult MemState) →
    List JsonValue × HandlerExit :=
  relayLoop memStateToJson

/-- The relay of realtime_process_stream: relayLoop with the process list
serializer. -/
def realtime_process_stream : (JsonValue → Bool) → List (RecvResult (List ProcessInfo)) →
    List JsonValue × HandlerExit :=
  relayLoop processListToJson

/-- Modelled from the spec: what the async runtime does once a handler task
stops at a given exit (library behavior, not under src).  Returns the pair
(subscription released, process-level failure).  A handler that ended its
loop, normally on a receive error or by the panic of an unwrapped failed
write, has returned or unwound, dropping its receiver and releasing its
subscription; the runtime confines a task panic to that task, so no exit is
a process-level failure.  A handler still blocked waiting on recv keeps its
subscription. -/
def handlerTaskAfter : HandlerExit → Bool × Bool
  | HandlerExit.stillWaiting => (false, false)
  | HandlerExit.recvError => (true, false)
  | HandlerExit.sendPanic => (true, false)

/-- A broadcast receiver, identified by its read position in the channel's
publication history. -/
structure BroadcastReceiver where
  pos : Nat
  deriving DecidableEq

/-- Modelled from the spec: tokio broadcast subscribe (library code, not
under src).  The channels are created at main.rs lines 49 to 51 and
subscribed to at lines 173, 191 and 209.  A new receiver is positioned past
the entire current history: nothing is buffered for future joiners, so a
late subscriber can only receive values published after it subscribed. -/
def subscribeChannel {α : Type} (history : List α) : BroadcastReceiver :=
  BroadcastReceiver.mk history.length

/-- Modelled from the spec: one recv on a broadcast receiver of a channel
with capacity 1, the capacity the source picks at main.rs lines 49 to 51.
If unread publications exist, the receiver obtains the oldest one still
within the retention window of 1 (skipping anything older, the lag-skip
behavior) and advances past it; otherwise it would block, modelled as
none. -/
def recvNext {α : Type} (history : List α) (r : BroadcastReceiver) :
    Option (α × BroadcastReceiver) :=
  if h : r.pos < history.length then
    let p := max r.pos (history.length - 1)
    some (history.get ⟨p, by omega⟩, BroadcastReceiver.mk (p + 1))
  else none

theorem counterAt_eq_mod (n : Nat) : counterAt n = n % 5 := by
  induction n with
  | zero => rfl
  | succ n ih =>
    show nextCounter (counterAt n) = (n + 1) % 5
    rw [ih]
    unfold nextCounter
    split <;> omega

/-- Claim C4: the decimation counter starts at 0, increments each cycle,
resets to 0 after reaching 5, and triggers the memory and process refresh
only on cycles where it equals 0; across any 5 consecutive sampler cycles
memory and process snapshots are recomputed exactly once, while the cpu
snapshot is recomputed on every cycle. -/
theorem claim_c4_decimation (ft : Bool) (obs : Nat → SysObs) :
    counterAt 0 = 0 ∧
    (∀ n, counterAt (n + 1) = nextCounter (counterAt n)) ∧
    (∀ n, (hasMemPub (samplerCycle ft (counterAt n) (obs n)).1 = true ↔ counterAt n = 0)) ∧
    (∀ n, (hasProcPub (samplerCycle ft (counterAt n) (obs n)).1 = true ↔ counterAt n = 0)) ∧
    (∀ m, ∃! k, k < 5 ∧ counterAt (m + k) = 0) ∧
    (∀ n, hasCpuPub (samplerCycle ft (counterAt n) (obs n)).1 = true) := by
  refine ⟨rfl, fun n => rfl, ?_, ?_, ?_, ?_⟩
  · intro n
    by_cases h : counterAt n = 0 <;> simp [samplerCycle, hasMemPub, isMemPub, h]
  · intro n
    by_cases h : counterAt n = 0 <;> simp [samplerCycle, hasProcPub, isProcPub, h]
  · intro m
    refine ⟨(5 - m % 5) % 5, ⟨by omega, ?_⟩, ?_⟩
    · rw [counterAt_eq_mod]; omega
    · rintro k ⟨hk5, hk0⟩
      rw [counterAt_eq_mod] at hk0
      omega
  · intro n
    by_cases h : counterAt n = 0 <;> simp [samplerCycle, hasCpuPub, isCpuPub, h]

theorem claim_c4_decimation_witness :
    counterAt 0 = 0 ∧
    hasCpuPub (samplerCycle false (counterAt 3) (SysObs.mk 2 1 [] [] [])).1 = true :=
  ⟨(claim_c4_decimation false (fun _ => SysObs.mk 2 1 [] [] [])).1,
   (claim_c4_decimation false (fun _ => SysObs.mk 2 1 [] [] [])).2.2.2.2.2 3⟩

/-- Claim C6: every published process snapshot has length at most 4 and is
sorted descending by cpu_usage: for every pair of adjacent entries the
earlier entry's cpu_usage is at least the later one's. -/
theorem claim_c6_process_snapshot_invariant (procs : List (String × ℚ)) :
    (computeProcesses procs).length ≤ 4 ∧
    List.Chain' (fun a b => b.cpu_usage ≤ a.cpu_usage) (computeProcesses procs) := by
  constructor
  · unfold computeProcesses
    exact List.length_take_le _ _
  · have hs : List.Pairwise procLe
        (List.insertionSort procLe
          (procs.map (fun p => ProcessInfo.mk p.fst (f32AsI32 p.snd)))) :=
      List.sorted_insertionSort procLe _
    have hrev : List.Pairwise (fun a b => b.cpu_usage ≤ a.cpu_usage)
        ((List.insertionSort procLe
          (procs.map (fun p => ProcessInfo.mk p.fst (f32AsI32 p.snd)))).reverse) :=
      List.pairwise_reverse.2 hs
    exact (hrev.sublist (List.take_sublist 4 _)).chain'

theorem claim_c6_process_snapshot_invariant_witness :
    (computeProcesses [("a", 3), ("b", 50), ("c", 50)]).length ≤ 4 ∧
    List.Chain' (fun a b => b.cpu_usage ≤ a.cpu_usage)
      (computeProcesses [("a", 3), ("b", 50), ("c", 50)]) :=
  claim_c6_process_snapshot_invariant [("a", 3), ("b", 50), ("c", 50)]

/-- Claim C2 as stated is false: on the 6-process input the published list
does have the cpu_usage values 50, 50, 12, 7, but the two processes of
equal usage appear in reverse enumeration order, not in original
enumeration order.  With names a to f enumerated with usages 3, 50, 50,
12, 0, 7, a stable descending sort keeping enumeration order among equals
would put b before c; the code (stable ascending sort, then reverse)
publishes c before b. -/
theorem claim_c2_counterexample :
    computeProcesses [("a", 3), ("b", 50), ("c", 50), ("d", 12), ("e", 0), ("f", 7)] ≠
      [ProcessInfo.mk "b" 50, ProcessInfo.mk "c" 50,
       ProcessInfo.mk "d" 12, ProcessInfo.mk "f" 7] := by
  decide

/-- Claim C2 amended: for 6 processes with cpu_usage values 3, 50, 50, 12,
0, 7 in enumeration order, the published process list is exactly 4 entries
with cpu_usage values 50, 50, 12, 7 in that relative order, where processes
of equal cpu_usage appear in reverse enumeration order, because the code
stable-sorts ascending and then reverses. -/
theorem claim_c2_amended :
    computeProcesses [("a", 3), ("b", 50), ("c", 50), ("d", 12), ("e", 0), ("f", 7)] =
      [ProcessInfo.mk "c" 50, ProcessInfo.mk "b" 50,
       ProcessInfo.mk "d" 12, ProcessInfo.mk "f" 7] ∧
    (computeProcesses [("a", 3), ("b", 50), ("c", 50), ("d", 12), ("e", 0), ("f", 7)]).map
        (fun p => p.cpu_usage) = [50, 50, 12, 7] := by
  constructor <;> decide

/-- Observation used for the claim C9 scenario: 4 cores with usages 10, 20,
5.5 and 99.9, no components. -/
def obsC9 : SysObs := SysObs.mk 0 0 [] [10, 20, 5.5, 99.9] []

/-- Claim C9: when the host reports 4 cores with usages 10, 20, 5.5 and
99.9 and no temperature sensors are present (default build), the published
cpu message is exactly the object with field cores holding the four
usage/temp records with null temps, field temp 0 and field core_temp
false, with these field names and this nesting. -/
theorem claim_c9_cpu_message :
    (samplerCycle false 1 obsC9).1 =
      [Publication.cpu (CpuState.mk
        [CpuCore.mk 10 none, CpuCore.mk 20 none,
         CpuCore.mk 5.5 none, CpuCore.mk 99.9 none] 0 false)] ∧
    cpuStateToJson (CpuState.mk
        [CpuCore.mk 10 none, CpuCore.mk 20 none,
         CpuCore.mk 5.5 none, CpuCore.mk 99.9 none] 0 false) =
      JsonValue.obj
        [("cores", JsonValue.arr
          [JsonValue.obj [("usage", JsonValue.num 10), ("temp", JsonValue.null)],
           JsonValue.obj [("usage", JsonValue.num 20), ("temp", JsonValue.null)],
           JsonValue.obj [("usage", JsonValue.num 5.5), ("temp", JsonValue.null)],
           JsonValue.obj [("usage", JsonValue.num 99.9), ("temp", JsonValue.null)]]),
         ("temp", JsonValue.num 0),
         ("core_temp", JsonValue.bool false)] :=
  ⟨rfl, rfl⟩

/-- Claim C5, amended to the default build: in the build without the
core_temp feature, every published cpu snapshot has as many cores as the
host reports cpu usages, whatever the components are. -/
theorem claim_c5_default_cores_length (c : Nat) (obs : SysObs) (st : CpuState)
    (h : Publication.cpu st ∈ (samplerCycle false c obs).1) :
    st.cores.length = obs.cpu_usages.length := by
  have hst : st = computeCpuState false obs.cpu_usages obs.components := by
    by_cases hc : c = 0 <;> simp [samplerCycle, hc] at h <;> exact h
  subst hst
  simp [computeCpuState]

theorem claim_c5_default_cores_length_witness :
    (CpuState.mk [CpuCore.mk 0 none, CpuCore.mk 0 none] 0 false).cores.length =
      (SysObs.mk 1 1 [] [0, 0] []).cpu_usages.length :=
  claim_c5_default_cores_length 3 (SysObs.mk 1 1 [] [0, 0] [])
    (CpuState.mk [CpuCore.mk 0 none, CpuCore.mk 0 none] 0 false) (by decide)

/-- Observation used for the claim C5 counterexample: 4 cores, no
components. -/
def obsC5 : SysObs := SysObs.mk 0 0 [] [10, 20, 5.5, 99.9] []

/-- Claim C5 as stated is false in the core_temp build: with 4 reported
cores and no matching temperature sensors the published cpu snapshot has 0
cores, not 4, because the nested sensor-matching loop only pushes a core
when some component label matches it. -/
theorem claim_c5_counterexample :
    (samplerCycle true 1 obsC5).1 = [Publication.cpu (CpuState.mk [] 0 true)] ∧
    (CpuState.mk ([] : List CpuCore) 0 true).cores.length ≠ obsC5.cpu_usages.length :=
  ⟨rfl, by decide⟩

/-- Claim C10: for every sampler cycle a memory snapshot is published in
that cycle if and only if a process snapshot is published in that cycle,
and when they are published the memory snapshot comes first; the counter
starts at 0, so the very first cycle publishes both. -/
theorem claim_c10_mem_proc_together (ft : Bool) (c : Nat) (obs : SysObs) :
    hasMemPub (samplerCycle ft c obs).1 = hasProcPub (samplerCycle ft c obs).1 ∧
    (∀ i j, firstIdxP isMemPub (samplerCycle ft c obs).1 = some i →
      firstIdxP isProcPub (samplerCycle ft c obs).1 = some j → i < j) ∧
    send_less_freq_init = 0 ∧
    hasMemPub (samplerCycle ft send_less_freq_init obs).1 = true ∧
    hasProcPub (samplerCycle ft send_less_freq_init obs).1 = true := by
  refine ⟨?_, ?_, rfl, ?_, ?_⟩
  · by_cases hc : c = 0 <;>
      simp [samplerCycle, hc, hasMemPub, hasProcPub, isMemPub, isProcPub]
  · intro i j hi hj
    by_cases hc : c = 0 <;>
      simp [samplerCycle, hc, firstIdxP, isMemPub, isProcPub] at hi hj
    omega
  · simp [samplerCycle, send_less_freq_init, hasMemPub, isMemPub]
  · simp [samplerCycle, send_less_freq_init, hasProcPub, isProcPub]

theorem claim_c10_mem_proc_together_witness :
    (0 : Nat) < 1 ∧
    hasMemPub (samplerCycle false send_less_freq_init (SysObs.mk 5 2 [] [] [])).1 = true :=
  ⟨(claim_c10_mem_proc_together false 0 (SysObs.mk 5 2 [] [] [])).2.1 0 1
      (by decide) (by decide),
   (claim_c10_mem_proc_together false 0 (SysObs.mk 5 2 [] [] [])).2.2.2.1⟩

/-- Claim C8: a publish with zero current subscribers is a no-op for the
sampler, not an error: the cycle's publications and next counter are the
same whatever the three subscriber counts are (every send result is
discarded and the subscriber count is never observed), one send is
attempted per publication regardless of outcome, and a send to zero
subscribers merely returns the value as an error which the loop drops. -/
theorem claim_c8_send_ignored (ft : Bool) (c : Nat) (obs : SysObs)
    (ramSubs procSubs cpuSubs : Nat) :
    (samplerCycleSends ft c obs ramSubs procSubs cpuSubs).1 = samplerCycle ft c obs ∧
    (samplerCycleSends ft c obs ramSubs procSubs cpuSubs).2.length =
      (samplerCycle ft c obs).1.length ∧
    (∀ v, broadcastSend 0 v = Except.error v) := by
  refine ⟨?_, ?_, fun v => rfl⟩ <;>
    by_cases hc : c = 0 <;>
    simp [samplerCycleSends, samplerCycle, hc]

theorem claim_c8_send_ignored_witness :
    (samplerCycleSends false 0 (SysObs.mk 8 4 [] [] []) 0 0 0).1 =
      samplerCycle false 0 (SysObs.mk 8 4 [] [] []) ∧
    broadcastSend 0 (Publication.mem (MemState.mk 8 4)) =
      Except.error (Publication.mem (MemState.mk 8 4)) :=
  ⟨(claim_c8_send_ignored false 0 (SysObs.mk 8 4 [] [] []) 0 0 0).1,
   (claim_c8_send_ignored false 0 (SysObs.mk 8 4 [] [] []) 0 0 0).2.2 _⟩

/-- Claim C3: when writing a serialized value to the viewer connection
fails, the relay loop terminates at once — exactly the messages received
before the failure were written and nothing after the failing receive is
consumed — the handler task's subscription is released, and the failure is
confined to the handler task, never a process-level failure.  The
serializer is arbitrary, so this covers the cpus, ram and processes
handlers alike. -/
theorem claim_c3_write_failure {α : Type} (ser : α → JsonValue) (w : JsonValue → Bool)
    (pre : List α) (v : α) (post : List (RecvResult α))
    (hpre : ∀ a ∈ pre, w (ser a) = true) (hv : w (ser v) = false) :
    relayLoop ser w (pre.map RecvResult.ok ++ RecvResult.ok v :: post) =
      (pre.map ser, HandlerExit.sendPanic) ∧
    handlerTaskAfter HandlerExit.sendPanic = (true, false) ∧
    (∀ e, (handlerTaskAfter e).2 = false) := by
  refine ⟨?_, rfl, fun e => by cases e <;> rfl⟩
  induction pre with
  | nil => simp [relayLoop, hv]
  | cons a t ih =>
    have ha : w (ser a) = true := hpre a (List.mem_cons_self a t)
    have iht := ih (fun x hx => hpre x (List.mem_cons_of_mem a hx))
    simp [relayLoop, ha, iht]

theorem claim_c3_write_failure_witness :
    relayLoop memStateToJson
      (fun j => match j with
        | JsonValue.obj (("total", JsonValue.num t) :: _) => decide (1 ≤ t)
        | _ => false)
      ([MemState.mk 16 8].map RecvResult.ok ++
        RecvResult.ok (MemState.mk 0 5) :: [RecvResult.ok (MemState.mk 2 2)]) =
      ([memStateToJson (MemState.mk 16 8)], HandlerExit.sendPanic) ∧
    handlerTaskAfter HandlerExit.sendPanic = (true, false) :=
  ⟨(claim_c3_write_failure memStateToJson
      (fun j => match j with
        | JsonValue.obj (("total", JsonValue.num t) :: _) => decide (1 ≤ t)
        | _ => false)
      [MemState.mk 16 8] (MemState.mk 0 5) [RecvResult.ok (MemState.mk 2 2)]
      (by decide) (by decide)).1,
   rfl⟩

/-- Claim C7: on any receive error from the broadcast channel — lag past
the channel retention or a closed channel — the relay loop ends gracefully
with the recvError exit, having written exactly the messages received
before the error; nothing after the error is consumed, so there is no
retry and no further message is written.  The serializer is arbitrary, so
this covers the cpus, ram and processes handlers alike. -/
theorem claim_c7_recv_error {α : Type} (ser : α → JsonValue) (w : JsonValue → Bool)
    (pre : List α) (post : List (RecvResult α)) (n : Nat)
    (hpre : ∀ a ∈ pre, w (ser a) = true) :
    relayLoop ser w (pre.map RecvResult.ok ++ RecvResult.lagged n :: post) =
      (pre.map ser, HandlerExit.recvError) ∧
    relayLoop ser w (pre.map RecvResult.ok ++ RecvResult.closed :: post) =
      (pre.map ser, HandlerExit.recvError) := by
  induction pre with
  | nil => exact ⟨rfl, rfl⟩
  | cons a t ih =>
    have ha : w (ser a) = true := hpre a (List.mem_cons_self a t)
    have iht := ih (fun x hx => hpre x (List.mem_cons_of_mem a hx))
    constructor <;> simp [relayLoop, ha, iht.1, iht.2]

theorem claim_c7_recv_error_witness :
    relayLoop processListToJson (fun _ => true)
      ([[ProcessInfo.mk "x" 9]].map RecvResult.ok ++
        RecvResult.lagged 2 :: [RecvResult.ok []]) =
      ([processListToJson [ProcessInfo.mk "x" 9]], HandlerExit.recvError) ∧
    relayLoop processListToJson (fun _ => true)
      ([[ProcessInfo.mk "x" 9]].map RecvResult.ok ++
        RecvResult.closed :: [RecvResult.ok []]) =
      ([processListToJson [ProcessInfo.mk "x" 9]], HandlerExit.recvError) :=
  claim_c7_recv_error processListToJson (fun _ => true)
    [[ProcessInfo.mk "x" 9]] [RecvResult.ok []] 2 (by decide)

/-- Claim C1: a subscriber that subscribes after the first N publications
and before publication N plus 1 receives publication N plus 1 as its first
value, and never receives publication N or any earlier publication: every
receive made from a receiver positioned at or past the end of the old
history yields a value stored at an index at or past that point, and
leaves the receiver there too. -/
theorem claim_c1_late_subscriber {α : Type} (hist h2 : List α) (v x : α)
    (r r2 : BroadcastReceiver)
    (hr : hist.length ≤ r.pos) (hrecv : recvNext h2 r = some (x, r2)) :
    recvNext (hist ++ [v]) (subscribeChannel hist) =
      some (v, BroadcastReceiver.mk (hist.length + 1)) ∧
    hist.length ≤ r2.pos ∧
    (∃ i, hist.length ≤ i ∧ h2[i]? = some x) := by
  refine ⟨?_, ?_⟩
  · unfold recvNext subscribeChannel
    have hlen : hist.length < (hist ++ [v]).length := by simp
    rw [dif_pos hlen]
    simp
  · unfold recvNext at hrecv
    split at hrecv
    case isTrue hlt =>
      simp only [Option.some.injEq, Prod.mk.injEq] at hrecv
      obtain ⟨hx, hr2⟩ := hrecv
      constructor
      · rw [← hr2]
        simp only []
        have := le_max_left r.pos (h2.length - 1)
        omega
      · refine ⟨max r.pos (h2.length - 1), ?_, ?_⟩
        · have := le_max_left r.pos (h2.length - 1)
          omega
        · rw [List.getElem?_eq_getElem (by omega)]
          rw [← hx]
          simp [List.get_eq_getElem]
    case isFalse => cases hrecv

theorem claim_c1_late_subscriber_witness :
    recvNext ([100] ++ [200]) (subscribeChannel [100]) =
      some (200, BroadcastReceiver.mk 2) ∧
    ([100] : List Nat).length ≤ (BroadcastReceiver.mk 2).pos ∧
    (∃ i, ([100] : List Nat).length ≤ i ∧ ([100, 200] : List Nat)[i]? = some 200) :=
  claim_c1_late_subscriber [100] [100, 200] 200 200
    (BroadcastReceiver.mk 1) (BroadcastReceiver.mk 2) (by decide) (by decide)
